import Mathlib

/-!
Verification of davidseroussi/klingCreator against its specification.

The development shallowly embeds the two source files, src/kling/api.py and
src/poll_webhook.py.  External collaborators (the kling provider client, the
HTTP client, the filesystem) are modelled as explicit environment parameters:
each network call's outcome is an input to the embedded function, and the
side effects (sleeps, webhook POSTs, temp-file creation and deletion,
background-task scheduling) are recorded in the function's result.
-/

/-- Modelled from the spec: the TaskStatus enumeration of the kling package
(the package root is not under src/).  Spec section 3 gives the members
PENDING, COMPLETED, FAILED, and src/kling/api.py references
TaskStatus.COMPLETED and TaskStatus.FAILED and the member names via
status.name.lower(). -/
inductive TaskStatus where
  | pending
  | completed
  | failed
deriving DecidableEq

/-- The name of a TaskStatus member, lowercased: status.name.lower() at
src/kling/api.py line 157. -/
def statusName : TaskStatus → String
  | TaskStatus.pending => "pending"
  | TaskStatus.completed => "completed"
  | TaskStatus.failed => "failed"

/-- A work identifier, work["workId"] in the provider metadata. -/
abbrev WorkId := Nat

/-- One poll of the provider: generator.fetch_metadata(task_id) either raises
(a mechanism failure, carried as its message) or returns metadata and a
status.  The metadata is represented by the list data.get("works", []) of
work identifiers, the only part the source reads. -/
abbrev PollOutcome := Except String (List WorkId × TaskStatus)

/-- The JSON body sent to the webhook (src/kling/api.py lines 51-55, 59-63,
70-74): always task_id and status, plus video_urls on completion or error on
failure/error. -/
structure WebhookPayload where
  task_id : Int
  status : String
  video_urls : Option (List String)
  error : Option String
deriving DecidableEq

/-- The completed payload of src/kling/api.py lines 51-55. -/
def completedPayload (task_id : Int) (video_urls : List String) : WebhookPayload :=
  { task_id := task_id, status := "completed", video_urls := some video_urls, error := none }

/-- The failed payload of src/kling/api.py lines 59-63. -/
def failedPayload (task_id : Int) : WebhookPayload :=
  { task_id := task_id, status := "failed", video_urls := none,
    error := some "Video generation failed" }

/-- The error payload of src/kling/api.py lines 70-74, carrying str(e). -/
def errorPayload (task_id : Int) (e : String) : WebhookPayload :=
  { task_id := task_id, status := "error", video_urls := none, error := some e }

/-- The per-work resolution loop of src/kling/api.py lines 44-49 (and
identically lines 146-151): for each work, fetch_video_url yields an optional
resource; the resource is appended exactly when present.  The lookup function
is an environment parameter; per the spec's collaborator interface it returns
an optional resource (fetchWorkMediaUrl(workId) yields a resource or none). -/
def resolveWorks (resolve : WorkId → Option String) : List WorkId → List String
  | [] => []
  | w :: ws =>
    match resolve w with
    | some r => r :: resolveWorks resolve ws
    | none => resolveWorks resolve ws

/-- An observable action of the poll loop: one fetch_metadata call, one
asyncio.sleep, or one outbound client.post attempt. -/
inductive Event where
  | poll : Event
  | sleep : Nat → Event
  | post : WebhookPayload → Event
deriving DecidableEq

/-- One webhook POST attempt inside the try block of poll_and_notify.  The
environment postRes says whether client.post for a given payload succeeds
(none) or raises with a message (some m).  When the POST of a terminal
payload raises, the except clause at src/kling/api.py lines 69-75 makes one
further POST carrying the error payload; whether that second POST succeeds
or raises, the loop ends after it. -/
def runPost (postRes : WebhookPayload → Option String) (task_id : Int)
    (p : WebhookPayload) : List Event :=
  match postRes p with
  | none => [Event.post p]
  | some m => [Event.post p, Event.post (errorPayload task_id m)]

/-- The poll loop of src/kling/api.py lines 32-75, as a function of the
stream of fetch_metadata outcomes.  Each iteration records an Event.poll;
COMPLETED resolves the works and posts the completed payload, FAILED posts
the failed payload, a raised mechanism failure posts the error payload, and
PENDING sleeps 5 and continues.  An exhausted stream models a run still in
progress: the loop itself never stops while the provider keeps answering
PENDING. -/
def poll_and_notify (task_id : Int) (resolve : WorkId → Option String)
    (postRes : WebhookPayload → Option String) : List PollOutcome → List Event
  | [] => []
  | Except.error e :: _ =>
    [Event.poll, Event.post (errorPayload task_id e)]
  | Except.ok (works, status) :: rest =>
    match status with
    | TaskStatus.completed =>
      Event.poll :: runPost postRes task_id (completedPayload task_id (resolveWorks resolve works))
    | TaskStatus.failed =>
      Event.poll :: runPost postRes task_id (failedPayload task_id)
    | TaskStatus.pending =>
      Event.poll :: Event.sleep 5 :: poll_and_notify task_id resolve postRes rest

/-- Discriminator for post events. -/
def isPost : Event → Bool
  | Event.post _ => true
  | _ => false

/-- Discriminator for poll events. -/
def isPoll : Event → Bool
  | Event.poll => true
  | _ => false

/-- Discriminator for sleep events. -/
def isSleep : Event → Bool
  | Event.sleep _ => true
  | _ => false

/-- Number of webhook delivery attempts in a run. -/
def postCount (l : List Event) : Nat := (l.filter isPost).length

/-- Number of delivery attempts carrying exactly the payload p. -/
def postsEq (p : WebhookPayload) (l : List Event) : Nat :=
  (l.filter (fun e => decide (e = Event.post p))).length

/-- True when no poll event occurs after any post event. -/
def noPollAfterPostB : List Event → Bool
  | [] => true
  | Event.post _ :: rest => rest.all (fun e => ! isPoll e) && noPollAfterPostB rest
  | _ :: rest => noPollAfterPostB rest

/-- A poll outcome that keeps the loop going: provider answered PENDING. -/
def isPendingOk : PollOutcome → Bool
  | Except.ok (_, TaskStatus.pending) => true
  | _ => false

/-- A finite poll stream contains a terminal observation (a mechanism
failure, or a COMPLETED or FAILED status) before running out. -/
def reachesTerminal : List PollOutcome → Bool
  | [] => false
  | Except.error _ :: _ => true
  | Except.ok (_, TaskStatus.pending) :: rest => reachesTerminal rest
  | Except.ok (_, _) :: _ => true

/-- The events produced by n consecutive PENDING polls. -/
def pendingPrefixEvents : Nat → List Event
  | 0 => []
  | n + 1 => Event.poll :: Event.sleep 5 :: pendingPrefixEvents n

/-- Substring test needle-is-a-prefix-of-hay, over character lists. -/
def listStartsWith : List Char → List Char → Bool
  | _, [] => true
  | [], _ :: _ => false
  | h :: hs, n :: ns => h == n && listStartsWith hs ns

/-- The Python membership test needle in hay on strings: needle occurs as a
contiguous substring of hay. -/
def listContainsSub (hay needle : List Char) : Bool :=
  match hay with
  | [] => needle.isEmpty
  | _ :: t => listStartsWith hay needle || listContainsSub t needle

/-- String wrapper for the Python substring test needle in hay. -/
def strContainsSub (hay needle : String) : Bool :=
  listContainsSub hay.toList needle.toList

/-- Index of the last occurrence of c in l (Python str.rfind, as an Option). -/
def lastIdxOf (c : Char) : List Char → Nat → Option Nat → Option Nat
  | [], _, acc => acc
  | x :: xs, i, acc => lastIdxOf c xs (i + 1) (if x == c then some i else acc)

/-- Python os.path.splitext(p)[1] for POSIX paths: the extension starts at the
last dot that lies after the last slash, provided the basename has at least
one non-dot character before that dot; otherwise the extension is empty. -/
def splitextExtL (p : List Char) : List Char :=
  match lastIdxOf '.' p 0 none with
  | none => []
  | some d =>
    let sep1 : Nat :=
      match lastIdxOf '/' p 0 none with
      | some s => s + 1
      | none => 0
    if sep1 ≤ d then
      if ((p.drop sep1).take (d - sep1)).any (fun c => c != '.') then p.drop d else []
    else []

/-- String wrapper for os.path.splitext(p)[1]. -/
def splitextExt (p : String) : String := String.mk (splitextExtL p.toList)

/-- The characters Python urllib.parse allows in a URL scheme. -/
def isSchemeChar (c : Char) : Bool :=
  c.isAlpha || c.isDigit || c == '+' || c == '-' || c == '.'

/-- The scheme-splitting step of urllib.parse.urlsplit: when the text before
the first colon is a nonempty run of scheme characters starting with an
ASCII letter, it is the (lowercased) scheme and the remainder follows the
colon; otherwise the scheme is empty and the URL is unchanged. -/
def splitScheme (l : List Char) : String × List Char :=
  match l.findIdx? (fun c => c == ':') with
  | some n =>
    if 0 < n
        && (match l.head? with
            | some c => c.isAlpha
            | none => false)
        && (l.take n).all isSchemeChar
    then (String.mk ((l.take n).map Char.toLower), l.drop (n + 1))
    else ("", l)
  | none => ("", l)

/-- The netloc-dropping step of urllib.parse.urlsplit: when the remainder
starts with two slashes, the network location extends to the first slash,
question mark or hash, and is removed. -/
def dropNetloc : List Char → List Char
  | '/' :: '/' :: rest => rest.dropWhile (fun c => c != '/' && c != '?' && c != '#')
  | l => l

/-- The schemes for which urllib.parse.urlparse splits parameters from the
last path segment (uses_params, including the empty scheme). -/
def usesParams : List String :=
  ["", "ftp", "hdl", "prospero", "http", "imap", "https", "shttp", "rtsp",
   "rtspu", "sip", "sips", "mms", "sftp", "tel"]

/-- Index of the first occurrence of c in l at position s or later. -/
def findIdxFrom (c : Char) (s : Nat) (l : List Char) : Option Nat :=
  match (l.drop s).findIdx? (fun x => x == c) with
  | some i => some (i + s)
  | none => none

/-- urllib.parse._splitparams on a path: when the path contains a slash, drop
everything from the first semicolon at or after the last slash (keeping the
path whole when no such semicolon exists); otherwise drop everything from
the first semicolon. -/
def splitParams (p : List Char) : List Char :=
  match lastIdxOf '/' p 0 none with
  | some s =>
    match findIdxFrom ';' s p with
    | some i => p.take i
    | none => p
  | none =>
    match p.findIdx? (fun x => x == ';') with
    | some i => p.take i
    | none => p

/-- urllib.parse.urlparse(url).path: split off the scheme, drop the network
location, truncate at the fragment and the query, and split parameters when
the scheme uses them. -/
def urlparsePath (url : String) : String :=
  let (scheme, r1) := splitScheme url.toList
  let r2 := dropNetloc r1
  let r3 := r2.takeWhile (fun c => c != '#')
  let p := r3.takeWhile (fun c => c != '?')
  let p2 := if usesParams.contains scheme then splitParams p else p
  String.mk p2

/-- The extension choice of src/kling/api.py lines 88-102: the content-type
header value is tested for containing each known image type in turn (the
Python in operator is substring containment), and otherwise the extension of
the URL path is used, with .jpg when that is empty. -/
def getExtension (content_type : String) (url : String) : String :=
  if strContainsSub content_type "image/jpeg" then ".jpg"
  else if strContainsSub content_type "image/png" then ".png"
  else if strContainsSub content_type "image/gif" then ".gif"
  else if strContainsSub content_type "image/webp" then ".webp"
  else
    let ext := splitextExt (urlparsePath url)
    if ext == "" then ".jpg" else ext

/-- The content-type table named by claim C8 and spec section 4.1. -/
def contentTypeTable : List (String × String) :=
  [("image/jpeg", ".jpg"), ("image/png", ".png"),
   ("image/gif", ".gif"), ("image/webp", ".webp")]

/-- Claim C8 read literally: the extension is the exact table image of the
content-type string, and only an absent or unrecognized content-type falls
back to the URL path extension and then to .jpg.  This definition follows
the claim's words, for comparison with getExtension from the source. -/
def extensionClaimC8 (content_type : String) (url : String) : String :=
  match contentTypeTable.lookup content_type with
  | some e => e
  | none =>
    let ext := splitextExt (urlparsePath url)
    if ext == "" then ".jpg" else ext

/-- Claim C8 amended: recognition of a content-type is containment of a
table key (in table order), not equality with it; the fallbacks are
unchanged.  This definition follows the amended claim's words. -/
def extensionAmendedC8 (content_type : String) (url : String) : String :=
  match contentTypeTable.find? (fun kv => strContainsSub content_type kv.1) with
  | some kv => kv.2
  | none =>
    let ext := splitextExt (urlparsePath url)
    if ext == "" then ".jpg" else ext

/-- The request body model of src/kling/api.py lines 20-27, after pydantic
validation: prompt is required, the booleans and model_name have defaults,
the other fields are optional.  The HttpUrl format check on webhook_url is
not modelled; the field is kept as an optional string. -/
structure VideoRequest where
  prompt : String
  image_url : Option String
  image_path : Option String
  is_high_quality : Bool
  auto_extend : Bool
  model_name : String
  webhook_url : Option String
deriving DecidableEq

/-- A request body before pydantic validation: every field may be absent. -/
structure RawVideoRequest where
  prompt : Option String
  image_url : Option String
  image_path : Option String
  is_high_quality : Option Bool
  auto_extend : Option Bool
  model_name : Option String
  webhook_url : Option String
deriving DecidableEq

/-- Pydantic validation of the VideoRequest declaration at src/kling/api.py
lines 20-27: prompt has no default, so an absent prompt is rejected with a
422 validation error; every other field falls back to its declared default.
Any present string, including the empty one, is accepted for prompt. -/
def validateRequest (raw : RawVideoRequest) : Except (Nat × String) VideoRequest :=
  match raw.prompt with
  | none => Except.error (422, "Field required")
  | some p =>
    Except.ok
      { prompt := p, image_url := raw.image_url, image_path := raw.image_path,
        is_high_quality := raw.is_high_quality.getD true,
        auto_extend := raw.auto_extend.getD false,
        model_name := raw.model_name.getD "1.5",
        webhook_url := raw.webhook_url }

/-- The truthiness of an optional string under the Python if statement:
None and the empty string are falsy. -/
def optStrTruthy : Option String → Bool
  | none => false
  | some s => s != ""

/-- The arguments of the generator.get_video call at src/kling/api.py lines
111-118. -/
structure SubmitArgs where
  prompt : String
  image_url : Option String
  image_path : Option String
  is_high_quality : Bool
  model_name : String
  return_task_only : Bool
deriving DecidableEq

/-- The response object of the image download at src/kling/api.py lines
84-89, reduced to what the source reads: the value of
response.headers.get with key content-type and default the empty string.
The body write is modelled as part of a successful fetch. -/
structure FetchResponse where
  content_type : String
deriving DecidableEq

/-- The environment of one create_video run: the outcome of the image GET
(error when client.get or raise_for_status raises, carrying the message),
the stem of the name NamedTemporaryFile picks (the chosen suffix is appended
to it), and the outcome of generator.get_video. -/
structure CreateEnv where
  fetch : Except String FetchResponse
  tempStem : String
  submit : Except String Int

/-- Everything observable about one create_video run: the HTTP response
(task id, or an HTTPException status code and detail), the temporary files
created, the files removed by os.remove, the request object's state at the
generator.get_video call (none when submission is never reached), the
arguments of that call, and the background tasks scheduled (task id and
webhook URL). -/
structure CreateResult where
  response : Except (Nat × String) Int
  created : List String
  removed : List String
  finalRequest : Option VideoRequest
  submitted : Option SubmitArgs
  scheduled : List (Int × String)

/-- str of a FastAPI HTTPException (Starlette renders it as
status_code, colon, detail), as produced when the outer except clause at
src/kling/api.py lines 135-136 re-wraps the HTTPException raised at line
123. -/
def httpExnStr (code : Nat) (detail : String) : String :=
  toString code ++ ": " ++ detail

/-- The inner try/except/finally of src/kling/api.py lines 110-133: call
generator.get_video with image_url None and the current image_path; on
failure raise HTTPException(400, str(e)), re-wrapped by the outer except;
in both cases the finally clause removes image_path when it is truthy and
image_url is None; on success schedule poll_and_notify when webhook_url is
truthy and return the task id. -/
def submitAndCleanup (req : VideoRequest) (created : List String)
    (env : CreateEnv) : CreateResult :=
  let args : SubmitArgs :=
    { prompt := req.prompt, image_url := none, image_path := req.image_path,
      is_high_quality := req.is_high_quality, model_name := req.model_name,
      return_task_only := true }
  let removed : List String :=
    match req.image_path with
    | some p => if p != "" && req.image_url == none then [p] else []
    | none => []
  match env.submit with
  | Except.ok task_id =>
    { response := Except.ok task_id, created := created, removed := removed,
      finalRequest := some req, submitted := some args,
      scheduled :=
        match req.webhook_url with
        | some w => if w != "" then [(task_id, w)] else []
        | none => [] }
  | Except.error e =>
    { response := Except.error (400, httpExnStr 400 e), created := created,
      removed := removed, finalRequest := some req, submitted := some args,
      scheduled := [] }

/-- The create-video endpoint of src/kling/api.py lines 77-136.  When
image_url is truthy the image is fetched: a raised fetch is caught by the
outer except and becomes a 400 response with no file created; a successful
fetch writes a temporary file whose name carries the chosen extension, and
the request's image_path is set to it and its image_url cleared.  Submission
and cleanup then proceed as in submitAndCleanup. -/
def create_video (req : VideoRequest) (env : CreateEnv) : CreateResult :=
  match req.image_url with
  | some u =>
    if u != "" then
      match env.fetch with
      | Except.error e =>
        { response := Except.error (400, e), created := [], removed := [],
          finalRequest := none, submitted := none, scheduled := [] }
      | Except.ok resp =>
        let extension := getExtension resp.content_type u
        let path := env.tempStem ++ extension
        let req2 := { req with image_path := some path, image_url := none }
        submitAndCleanup req2 [path] env
    else submitAndCleanup req [] env
  | none => submitAndCleanup req [] env

/-- The full endpoint: pydantic validation of the body, then create_video.
A validation failure produces the 422 response and touches nothing. -/
def handleCreate (raw : RawVideoRequest) (env : CreateEnv) : CreateResult :=
  match validateRequest raw with
  | Except.error err =>
    { response := Except.error err, created := [], removed := [],
      finalRequest := none, submitted := none, scheduled := [] }
  | Except.ok req => create_video req env

/-- The response body of the video-status endpoint. -/
structure StatusResponse where
  task_id : String
  status : String
  video_urls : List String
deriving DecidableEq

/-- The video-status endpoint of src/kling/api.py lines 138-161: one
fetch_metadata call; a raised mechanism failure becomes a 400 response;
otherwise the works are resolved exactly when the status is COMPLETED, and
the response carries the lowercased status name and the resolved URLs. -/
def get_video_status (task_id : String)
    (fetch : Except String (List WorkId × TaskStatus))
    (resolve : WorkId → Option String) : Except (Nat × String) StatusResponse :=
  match fetch with
  | Except.error e => Except.error (400, e)
  | Except.ok (works, status) =>
    let video_urls :=
      match status with
      | TaskStatus.completed => resolveWorks resolve works
      | _ => []
    Except.ok { task_id := task_id, status := statusName status, video_urls := video_urls }

theorem resolveWorks_eq_filterMap (resolve : WorkId → Option String) (l : List WorkId) :
    resolveWorks resolve l = l.filterMap resolve := by
  induction l with
  | nil => rfl
  | cons w ws ih =>
    simp only [resolveWorks, List.filterMap_cons]
    cases resolve w <;> simp [ih]

theorem poll_pending_segment (tid : Int) (resolve : WorkId → Option String)
    (postRes : WebhookPayload → Option String) (pre tail : List PollOutcome)
    (h : ∀ x ∈ pre, isPendingOk x = true) :
    poll_and_notify tid resolve postRes (pre ++ tail)
      = pendingPrefixEvents pre.length ++ poll_and_notify tid resolve postRes tail := by
  induction pre with
  | nil => rfl
  | cons x xs ih =>
    have hx : isPendingOk x = true := h x (by simp)
    cases x with
    | error e => simp [isPendingOk] at hx
    | ok p =>
      obtain ⟨w, s⟩ := p
      cases s with
      | pending =>
        simp only [List.cons_append, poll_and_notify, List.length_cons, pendingPrefixEvents,
          List.append_eq]
        rw [ih (fun y hy => h y (by simp [hy]))]
      | completed => simp [isPendingOk] at hx
      | failed => simp [isPendingOk] at hx

theorem noPollAfterPost_run (tid : Int) (resolve : WorkId → Option String)
    (postRes : WebhookPayload → Option String) (trace : List PollOutcome) :
    noPollAfterPostB (poll_and_notify tid resolve postRes trace) = true := by
  induction trace with
  | nil => rfl
  | cons x rest ih =>
    cases x with
    | error e => rfl
    | ok p =>
      obtain ⟨w, s⟩ := p
      cases s with
      | pending => simpa [poll_and_notify, noPollAfterPostB] using ih
      | completed =>
        simp only [poll_and_notify, runPost]
        cases postRes (completedPayload tid (resolveWorks resolve w)) <;>
          simp [noPollAfterPostB, isPoll]
      | failed =>
        simp only [poll_and_notify, runPost]
        cases postRes (failedPayload tid) <;> simp [noPollAfterPostB, isPoll]

theorem run_terminal_append (tid : Int) (resolve : WorkId → Option String)
    (postRes : WebhookPayload → Option String) (trace rest : List PollOutcome)
    (h : reachesTerminal trace = true) :
    poll_and_notify tid resolve postRes (trace ++ rest)
      = poll_and_notify tid resolve postRes trace := by
  induction trace with
  | nil => simp [reachesTerminal] at h
  | cons x xs ih =>
    cases x with
    | error e => rfl
    | ok p =>
      obtain ⟨w, s⟩ := p
      cases s with
      | pending =>
        have h2 : reachesTerminal xs = true := by simpa [reachesTerminal] using h
        simp [poll_and_notify, ih h2]
      | completed => rfl
      | failed => rfl

theorem postCount_run_bounds (tid : Int) (resolve : WorkId → Option String)
    (postRes : WebhookPayload → Option String) (trace : List PollOutcome)
    (h : reachesTerminal trace = true) :
    1 ≤ postCount (poll_and_notify tid resolve postRes trace) ∧
      postCount (poll_and_notify tid resolve postRes trace) ≤ 2 := by
  induction trace with
  | nil => simp [reachesTerminal] at h
  | cons x xs ih =>
    cases x with
    | error e => simp [poll_and_notify, postCount, isPost]
    | ok p =>
      obtain ⟨w, s⟩ := p
      cases s with
      | pending =>
        have h2 : reachesTerminal xs = true := by simpa [reachesTerminal] using h
        simpa [poll_and_notify, postCount, isPost] using ih h2
      | completed =>
        simp only [poll_and_notify, runPost]
        cases postRes (completedPayload tid (resolveWorks resolve w)) <;>
          simp [postCount, isPost]
      | failed =>
        simp only [poll_and_notify, runPost]
        cases postRes (failedPayload tid) <;> simp [postCount, isPost]

theorem postCount_run_all_ok (tid : Int) (resolve : WorkId → Option String)
    (postRes : WebhookPayload → Option String) (hp : ∀ q, postRes q = none)
    (trace : List PollOutcome) (h : reachesTerminal trace = true) :
    postCount (poll_and_notify tid resolve postRes trace) = 1 := by
  induction trace with
  | nil => simp [reachesTerminal] at h
  | cons x xs ih =>
    cases x with
    | error e => simp [poll_and_notify, postCount, isPost]
    | ok p =>
      obtain ⟨w, s⟩ := p
      cases s with
      | pending =>
        have h2 : reachesTerminal xs = true := by simpa [reachesTerminal] using h
        simpa [poll_and_notify, postCount, isPost] using ih h2
      | completed => simp [poll_and_notify, runPost, hp, postCount, isPost]
      | failed => simp [poll_and_notify, runPost, hp, postCount, isPost]

/-- C2: when the provider reports COMPLETED, the translator resolves the
works in provider order (resolveWorks is exactly filterMap of the lookup,
which keeps order and drops failed lookups), and a failed or empty secondary
lookup is silently omitted without aborting the translation or changing the
COMPLETED state; in particular, for three works whose second lookup fails,
the result is exactly the first and third URLs in that relative order. -/
theorem C2_completed_omits_failed_lookups :
    (∀ (resolve : WorkId → Option String) (works : List WorkId),
       resolveWorks resolve works = works.filterMap resolve) ∧
    (∀ (tid : String) (resolve : WorkId → Option String) (w1 w2 w3 : WorkId) (u1 u3 : String),
       resolve w1 = some u1 → resolve w2 = none → resolve w3 = some u3 →
       get_video_status tid (Except.ok ([w1, w2, w3], TaskStatus.completed)) resolve
         = Except.ok { task_id := tid, status := "completed", video_urls := [u1, u3] }) := by
  refine ⟨resolveWorks_eq_filterMap, ?_⟩
  intro tid resolve w1 w2 w3 u1 u3 h1 h2 h3
  simp [get_video_status, resolveWorks, statusName, h1, h2, h3]

/-- Witness for C2 at a concrete lookup function. -/
theorem C2_witness :
    get_video_status "t1"
        (Except.ok ([1, 2, 3], TaskStatus.completed))
        (fun w => if w = 1 then some "u1" else if w = 3 then some "u3" else none)
      = Except.ok { task_id := "t1", status := "completed", video_urls := ["u1", "u3"] } :=
  C2_completed_omits_failed_lookups.2 "t1"
    (fun w => if w = 1 then some "u1" else if w = 3 then some "u3" else none)
    1 2 3 "u1" "u3" rfl rfl rfl

/-- C3: a mechanism-level failure raised during any poll attempt (after any
number of PENDING polls) makes the loop post the error payload carrying the
failure's description and stop, never retrying: the whole run is the pending
prefix followed by one poll and one error POST, whatever comes after the
failure in the environment; and the ERROR outcome's status string differs
from the FAILED outcome's. -/
theorem C3_mechanism_failure_posts_error :
    ∀ (tid : Int) (resolve : WorkId → Option String) (postRes : WebhookPayload → Option String)
      (pre : List PollOutcome) (e : String) (rest : List PollOutcome),
      (∀ x ∈ pre, isPendingOk x = true) →
      poll_and_notify tid resolve postRes (pre ++ Except.error e :: rest)
          = pendingPrefixEvents pre.length ++ [Event.poll, Event.post (errorPayload tid e)] ∧
        (errorPayload tid e).status = "error" ∧
        (errorPayload tid e).error = some e ∧
        (errorPayload tid e).status ≠ (failedPayload tid).status := by
  intro tid resolve postRes pre e rest h
  refine ⟨?_, rfl, rfl, fun hc => by simp [errorPayload, failedPayload] at hc⟩
  rw [poll_pending_segment tid resolve postRes pre _ h]
  rfl

/-- Witness for C3: two PENDING polls, then a raised network failure. -/
theorem C3_witness :
    poll_and_notify 9 (fun _ => none) (fun _ => none)
        ([Except.ok ([], TaskStatus.pending), Except.ok ([], TaskStatus.pending)] ++
          Except.error "timeout" :: [])
      = pendingPrefixEvents 2 ++ [Event.poll, Event.post (errorPayload 9 "timeout")] :=
  (C3_mechanism_failure_posts_error 9 (fun _ => none) (fun _ => none)
    [Except.ok ([], TaskStatus.pending), Except.ok ([], TaskStatus.pending)]
    "timeout" [] (by decide)).1

/-- C4: on translator outputs PENDING, PENDING, then COMPLETED resolving to
the URLs u1, u2, the loop sleeps exactly twice (an interval of 5 after each
PENDING) and then posts the completed payload with those URLs exactly once,
whatever the POST outcome. -/
theorem C4_two_pending_then_completed :
    ∀ (tid : Int) (resolve : WorkId → Option String) (postRes : WebhookPayload → Option String)
      (w1 w2 w3 : List WorkId) (u1 u2 : String),
      resolveWorks resolve w3 = [u1, u2] →
      poll_and_notify tid resolve postRes
          [Except.ok (w1, TaskStatus.pending), Except.ok (w2, TaskStatus.pending),
           Except.ok (w3, TaskStatus.completed)]
          = [Event.poll, Event.sleep 5, Event.poll, Event.sleep 5, Event.poll]
              ++ runPost postRes tid (completedPayload tid [u1, u2]) ∧
        ((poll_and_notify tid resolve postRes
            [Except.ok (w1, TaskStatus.pending), Except.ok (w2, TaskStatus.pending),
             Except.ok (w3, TaskStatus.completed)]).filter isSleep).length = 2 ∧
        postsEq (completedPayload tid [u1, u2])
            (poll_and_notify tid resolve postRes
              [Except.ok (w1, TaskStatus.pending), Except.ok (w2, TaskStatus.pending),
               Except.ok (w3, TaskStatus.completed)]) = 1 := by
  intro tid resolve postRes w1 w2 w3 u1 u2 h
  have e1 : poll_and_notify tid resolve postRes
      [Except.ok (w1, TaskStatus.pending), Except.ok (w2, TaskStatus.pending),
       Except.ok (w3, TaskStatus.completed)]
      = [Event.poll, Event.sleep 5, Event.poll, Event.sleep 5, Event.poll]
          ++ runPost postRes tid (completedPayload tid [u1, u2]) := by
    simp [poll_and_notify, h]
  refine ⟨e1, ?_, ?_⟩
  · rw [e1]
    simp only [runPost]
    cases postRes (completedPayload tid [u1, u2]) <;> simp [isSleep]
  · rw [e1]
    simp only [runPost, postsEq]
    cases postRes (completedPayload tid [u1, u2]) <;>
      simp [errorPayload, completedPayload]

/-- Witness for C4 at a concrete lookup function and succeeding POSTs. -/
theorem C4_witness :
    poll_and_notify 3 (fun w => if w = 0 then some "a" else some "b") (fun _ => none)
        [Except.ok ([], TaskStatus.pending), Except.ok ([], TaskStatus.pending),
         Except.ok ([0, 1], TaskStatus.completed)]
      = [Event.poll, Event.sleep 5, Event.poll, Event.sleep 5, Event.poll]
          ++ runPost (fun _ => none) 3 (completedPayload 3 ["a", "b"]) :=
  (C4_two_pending_then_completed 3 (fun w => if w = 0 then some "a" else some "b")
    (fun _ => none) [] [] [0, 1] "a" "b" (by decide)).1

/-- C5: a provider-declared FAILED observed after any number of PENDING polls
makes the loop post exactly the failed payload, with status failed and the
fixed description, and perform no further polling: the run is the pending
prefix, one poll, the failed POST attempt, and at most the except clause's
error POST when that attempt raises; nothing after the FAILED observation is
consumed, and no poll event follows a post. -/
theorem C5_provider_failed_posts_failed :
    ∀ (tid : Int) (resolve : WorkId → Option String) (postRes : WebhookPayload → Option String)
      (pre : List PollOutcome) (works : List WorkId) (rest : List PollOutcome),
      (∀ x ∈ pre, isPendingOk x = true) →
      poll_and_notify tid resolve postRes (pre ++ Except.ok (works, TaskStatus.failed) :: rest)
          = pendingPrefixEvents pre.length
              ++ Event.poll :: runPost postRes tid (failedPayload tid) ∧
        runPost postRes tid (failedPayload tid)
          = Event.post (failedPayload tid)
              :: (match postRes (failedPayload tid) with
                  | none => []
                  | some m => [Event.post (errorPayload tid m)]) ∧
        (failedPayload tid).status = "failed" ∧
        (failedPayload tid).error = some "Video generation failed" ∧
        noPollAfterPostB
            (poll_and_notify tid resolve postRes
              (pre ++ Except.ok (works, TaskStatus.failed) :: rest)) = true := by
  intro tid resolve postRes pre works rest h
  refine ⟨?_, ?_, rfl, rfl, noPollAfterPost_run tid resolve postRes _⟩
  · rw [poll_pending_segment tid resolve postRes pre _ h]
    rfl
  · simp only [runPost]
    cases postRes (failedPayload tid) <;> rfl

/-- Witness for C5: one PENDING poll, then FAILED, with succeeding POSTs. -/
theorem C5_witness :
    poll_and_notify 4 (fun _ => none) (fun _ => none)
        ([Except.ok ([], TaskStatus.pending)] ++ Except.ok ([7], TaskStatus.failed) :: [])
      = pendingPrefixEvents 1 ++ Event.poll :: runPost (fun _ => none) 4 (failedPayload 4) :=
  (C5_provider_failed_posts_failed 4 (fun _ => none) (fun _ => none)
    [Except.ok ([], TaskStatus.pending)] [7] [] (by decide)).1

theorem submitAndCleanup_scheduled_none (req : VideoRequest) (c : List String)
    (env : CreateEnv) (h : req.webhook_url = none) :
    (submitAndCleanup req c env).scheduled = [] := by
  cases hs : env.submit <;> simp [submitAndCleanup, hs, h]

/-- C1 as stated is false on the code: when the POST of the terminal payload
itself raises, the except clause makes a second POST (the error payload), so
a run can contain two outbound delivery attempts.  Concretely: one COMPLETED
poll whose completed POST raises with message connection refused yields two
POST events. -/
theorem C1_counterexample :
    poll_and_notify 7 (fun _ => none) (fun _ => some "connection refused")
        [Except.ok ([], TaskStatus.completed)]
      = [Event.poll, Event.post (completedPayload 7 []),
         Event.post (errorPayload 7 "connection refused")] ∧
    postCount
        (poll_and_notify 7 (fun _ => none) (fun _ => some "connection refused")
          [Except.ok ([], TaskStatus.completed)]) = 2 := by
  exact ⟨rfl, rfl⟩

/-- C1 amended: a job created without a webhook target schedules no poll
loop, so zero delivery attempts are made; for a job with a target, once the
run observes a terminal state or a mechanism failure it makes at least one
and at most two delivery attempts — exactly one when every POST succeeds,
with a second error-payload POST only when the terminal POST raises — the
loop consumes nothing after the terminal observation, and never polls after
a delivery attempt. -/
theorem C1_amended_delivery :
    (∀ (req : VideoRequest) (env : CreateEnv),
       req.webhook_url = none → (create_video req env).scheduled = []) ∧
    (∀ (tid : Int) (resolve : WorkId → Option String)
       (postRes : WebhookPayload → Option String) (trace : List PollOutcome),
       reachesTerminal trace = true →
       1 ≤ postCount (poll_and_notify tid resolve postRes trace) ∧
         postCount (poll_and_notify tid resolve postRes trace) ≤ 2 ∧
         ((∀ q, postRes q = none) →
           postCount (poll_and_notify tid resolve postRes trace) = 1) ∧
         (∀ rest, poll_and_notify tid resolve postRes (trace ++ rest)
             = poll_and_notify tid resolve postRes trace)) ∧
    (∀ (tid : Int) (resolve : WorkId → Option String)
       (postRes : WebhookPayload → Option String) (trace : List PollOutcome),
       noPollAfterPostB (poll_and_notify tid resolve postRes trace) = true) := by
  refine ⟨?_, ?_, noPollAfterPost_run⟩
  · intro req env h
    cases hm : req.image_url with
    | none =>
      simp only [create_video, hm]
      exact submitAndCleanup_scheduled_none req [] env h
    | some u =>
      simp only [create_video, hm]
      by_cases hu : (u != "") = true
      · rw [if_pos hu]
        cases hf : env.fetch with
        | error e => rfl
        | ok resp => exact submitAndCleanup_scheduled_none _ _ env h
      · rw [if_neg hu]
        exact submitAndCleanup_scheduled_none req [] env h
  · intro tid resolve postRes trace ht
    obtain ⟨h1, h2⟩ := postCount_run_bounds tid resolve postRes trace ht
    exact ⟨h1, h2, fun hp => postCount_run_all_ok tid resolve postRes hp trace ht,
      fun rest => run_terminal_append tid resolve postRes trace rest ht⟩

/-- Witness for C1 amended: a request without a webhook target schedules
nothing, and a run with one FAILED poll and succeeding POSTs makes exactly
one delivery attempt. -/
theorem C1_witness :
    (create_video
        { prompt := "p", image_url := none, image_path := none, is_high_quality := true,
          auto_extend := false, model_name := "1.5", webhook_url := none }
        { fetch := Except.error "unused", tempStem := "/tmp/a", submit := Except.ok 1 }).scheduled
      = [] ∧
    postCount (poll_and_notify 1 (fun _ => none) (fun _ => none)
        [Except.ok ([], TaskStatus.failed)]) = 1 :=
  ⟨C1_amended_delivery.1
      { prompt := "p", image_url := none, image_path := none, is_high_quality := true,
        auto_extend := false, model_name := "1.5", webhook_url := none }
      { fetch := Except.error "unused", tempStem := "/tmp/a", submit := Except.ok 1 } rfl,
    (C1_amended_delivery.2.1 1 (fun _ => none) (fun _ => none)
      [Except.ok ([], TaskStatus.failed)] rfl).2.2.1 (fun _ => rfl)⟩

theorem submitAndCleanup_created (req : VideoRequest) (c : List String) (env : CreateEnv) :
    (submitAndCleanup req c env).created = c := by
  cases hs : env.submit <;> simp [submitAndCleanup, hs]

theorem submitAndCleanup_removed (req : VideoRequest) (c : List String) (env : CreateEnv) :
    (submitAndCleanup req c env).removed
      = match req.image_path with
        | some p => if p != "" && req.image_url == none then [p] else []
        | none => [] := by
  cases hs : env.submit <;> simp [submitAndCleanup, hs]

theorem submitAndCleanup_finalRequest (req : VideoRequest) (c : List String) (env : CreateEnv) :
    (submitAndCleanup req c env).finalRequest = some req := by
  cases hs : env.submit <;> simp [submitAndCleanup, hs]

theorem submitAndCleanup_submitted (req : VideoRequest) (c : List String) (env : CreateEnv) :
    (submitAndCleanup req c env).submitted
      = some { prompt := req.prompt, image_url := none, image_path := req.image_path,
               is_high_quality := req.is_high_quality, model_name := req.model_name,
               return_task_only := true } := by
  cases hs : env.submit <;> simp [submitAndCleanup, hs]

theorem getExtension_ne_empty (ct url : String) : getExtension ct url ≠ "" := by
  unfold getExtension
  split
  · decide
  split
  · decide
  split
  · decide
  split
  · decide
  show (if (splitextExt (urlparsePath url) == "") = true then ".jpg"
        else splitextExt (urlparsePath url)) ≠ ""
  split
  · decide
  · rename_i h5
    exact fun hc => h5 (by rw [hc]; rfl)

theorem str_append_ne_empty (a b : String) (hb : b ≠ "") : a ++ b ≠ "" := by
  intro h
  apply hb
  cases a with
  | mk la =>
    cases b with
    | mk lb =>
      have h2 : la ++ lb = ([] : List Char) := congrArg String.data h
      have : lb = [] := (List.append_eq_nil.mp h2).2
      rw [this]

/-- C6: every temporary file created by the image download during a
create_video run is deleted by the time the run returns, whatever the
environment — in particular on the success path and when submission raises
(the finally clause runs in both cases). -/
theorem C6_temp_files_deleted :
    ∀ (req : VideoRequest) (env : CreateEnv) (f : String),
      f ∈ (create_video req env).created → f ∈ (create_video req env).removed := by
  intro req env f hf
  cases hm : req.image_url with
  | none =>
    simp only [create_video, hm, submitAndCleanup_created] at hf
    simp at hf
  | some u =>
    by_cases hu : (u != "") = true
    · cases hfe : env.fetch with
      | error e =>
        simp only [create_video, hm, if_pos hu, hfe] at hf
        simp at hf
      | ok resp =>
        simp only [create_video, hm, if_pos hu, hfe, submitAndCleanup_created] at hf
        simp only [List.mem_singleton] at hf
        subst hf
        simp only [create_video, hm, if_pos hu, hfe, submitAndCleanup_removed]
        have hne : env.tempStem ++ getExtension resp.content_type u ≠ "" :=
          str_append_ne_empty _ _ (getExtension_ne_empty _ _)
        simp [bne_iff_ne, hne]
    · simp only [create_video, hm, if_neg hu, submitAndCleanup_created] at hf
      simp at hf

/-- Witness for C6: a fetched image produces one temporary file, and it is
among the removed files. -/
theorem C6_witness :
    "/tmp/x.png" ∈ (create_video
        { prompt := "p", image_url := some "http://h/a", image_path := none,
          is_high_quality := true, auto_extend := false, model_name := "1.5",
          webhook_url := none }
        { fetch := Except.ok { content_type := "image/png" }, tempStem := "/tmp/x",
          submit := Except.error "boom" }).removed :=
  C6_temp_files_deleted
    { prompt := "p", image_url := some "http://h/a", image_path := none,
      is_high_quality := true, auto_extend := false, model_name := "1.5",
      webhook_url := none }
    { fetch := Except.ok { content_type := "image/png" }, tempStem := "/tmp/x",
      submit := Except.error "boom" }
    "/tmp/x.png" (by decide)

/-- C10: when the caller supplies image_path directly and no image_url, the
cleanup clause deletes the caller-provided file after the submission attempt
(the condition only checks that image_path is set and image_url is None),
even though the media fetch created no file. -/
theorem C10_caller_path_deleted :
    ∀ (req : VideoRequest) (env : CreateEnv) (p : String),
      req.image_url = none → req.image_path = some p → p ≠ "" →
      (create_video req env).removed = [p] ∧ (create_video req env).created = [] := by
  intro req env p hu hp hne
  constructor
  · simp only [create_video, hu, submitAndCleanup_removed]
    simp [hp, hu, bne_iff_ne, hne]
  · simp only [create_video, hu, submitAndCleanup_created]

/-- Witness for C10: a caller-provided path is removed on the submission
failure path with no file created. -/
theorem C10_witness :
    (create_video
        { prompt := "p", image_url := none, image_path := some "/home/me/pic.jpg",
          is_high_quality := true, auto_extend := false, model_name := "1.5",
          webhook_url := none }
        { fetch := Except.error "unused", tempStem := "/tmp/x",
          submit := Except.error "boom" }).removed = ["/home/me/pic.jpg"] ∧
    (create_video
        { prompt := "p", image_url := none, image_path := some "/home/me/pic.jpg",
          is_high_quality := true, auto_extend := false, model_name := "1.5",
          webhook_url := none }
        { fetch := Except.error "unused", tempStem := "/tmp/x",
          submit := Except.error "boom" }).created = [] :=
  C10_caller_path_deleted
    { prompt := "p", image_url := none, image_path := some "/home/me/pic.jpg",
      is_high_quality := true, auto_extend := false, model_name := "1.5",
      webhook_url := none }
    { fetch := Except.error "unused", tempStem := "/tmp/x",
      submit := Except.error "boom" }
    "/home/me/pic.jpg" rfl rfl (by decide)

/-- C7: the generator.get_video call always receives a null image URL (the
source passes the literal None); and for every request with a truthy
image_url that reaches submission, the request state at the call has its URL
field cleared and the fetched image's local path stored — exactly one of
the two image fields is non-empty. -/
theorem C7_exactly_one_image_source :
    (∀ (req : VideoRequest) (env : CreateEnv) (a : SubmitArgs),
       (create_video req env).submitted = some a → a.image_url = none) ∧
    (∀ (req : VideoRequest) (env : CreateEnv) (fr : VideoRequest),
       optStrTruthy req.image_url = true →
       (create_video req env).finalRequest = some fr →
       fr.image_url = none ∧ optStrTruthy fr.image_path = true) := by
  constructor
  · intro req env a ha
    cases hm : req.image_url with
    | none =>
      simp only [create_video, hm, submitAndCleanup_submitted] at ha
      cases ha
      rfl
    | some u =>
      by_cases hu : (u != "") = true
      · have hu2 : u ≠ "" := by simpa [bne_iff_ne] using hu
        cases hfe : env.fetch with
        | error e => simp [create_video, hm, hu2, hfe] at ha
        | ok resp =>
          simp only [create_video, hm, if_pos hu, hfe, submitAndCleanup_submitted] at ha
          cases ha
          rfl
      · simp only [create_video, hm, if_neg hu, submitAndCleanup_submitted] at ha
        cases ha
        rfl
  · intro req env fr ht hfr
    cases hm : req.image_url with
    | none => rw [hm] at ht; simp [optStrTruthy] at ht
    | some u =>
      rw [hm] at ht
      have hu : (u != "") = true := by simpa [optStrTruthy] using ht
      have hu2 : u ≠ "" := by simpa [bne_iff_ne] using hu
      cases hfe : env.fetch with
      | error e => simp [create_video, hm, hu2, hfe] at hfr
      | ok resp =>
        simp only [create_video, hm, if_pos hu, hfe, submitAndCleanup_finalRequest] at hfr
        cases hfr
        refine ⟨rfl, ?_⟩
        have hne : env.tempStem ++ getExtension resp.content_type u ≠ "" :=
          str_append_ne_empty _ _ (getExtension_ne_empty _ _)
        simpa [optStrTruthy, bne_iff_ne] using hne

/-- Witness for C7 at a concrete request and environment. -/
theorem C7_witness :
    ({ prompt := "p", image_url := none, image_path := some "/tmp/x.png",
       is_high_quality := true, auto_extend := false, model_name := "1.5",
       webhook_url := none } : VideoRequest).image_url = none ∧
    optStrTruthy
        ({ prompt := "p", image_url := none, image_path := some "/tmp/x.png",
           is_high_quality := true, auto_extend := false, model_name := "1.5",
           webhook_url := none } : VideoRequest).image_path = true :=
  C7_exactly_one_image_source.2
    { prompt := "p", image_url := some "http://h/a", image_path := none,
      is_high_quality := true, auto_extend := false, model_name := "1.5",
      webhook_url := none }
    { fetch := Except.ok { content_type := "image/png" }, tempStem := "/tmp/x",
      submit := Except.ok 6 }
    { prompt := "p", image_url := none, image_path := some "/tmp/x.png",
      is_high_quality := true, auto_extend := false, model_name := "1.5",
      webhook_url := none }
    (by decide) (by decide)

/-- C8 as stated is false on the code: the source tests the content-type
with the Python in operator (substring containment), not a table lookup of
the content-type string.  A content-type that strictly contains a table key
is unrecognized by the claim's table yet matched by the code: for
content-type ximage/png and a URL whose path ends in .gif, the code picks
.png while the claim's rule (b) picks .gif. -/
theorem C8_counterexample :
    getExtension "ximage/png" "http://h/a.gif" = ".png" ∧
    extensionClaimC8 "ximage/png" "http://h/a.gif" = ".gif" ∧
    getExtension "ximage/png" "http://h/a.gif"
      ≠ extensionClaimC8 "ximage/png" "http://h/a.gif" := by
  refine ⟨rfl, rfl, ?_⟩
  decide

/-- C8 amended: the extension is determined by, in order, (a) testing the
content-type for containing each known type string (image/jpeg then
image/png then image/gif then image/webp, mapped to .jpg, .png, .gif,
.webp); (b) if the content-type is absent or contains none of them, the
extension parsed from the URL's path component; (c) if still absent, the
default .jpg.  The source function equals this amended table-with-
containment reading on every input. -/
theorem C8_amended_extension_order :
    ∀ (content_type url : String),
      getExtension content_type url = extensionAmendedC8 content_type url := by
  intro ct url
  unfold getExtension extensionAmendedC8 contentTypeTable
  cases h1 : strContainsSub ct "image/jpeg" <;>
    cases h2 : strContainsSub ct "image/png" <;>
      cases h3 : strContainsSub ct "image/gif" <;>
        cases h4 : strContainsSub ct "image/webp" <;>
          simp [List.find?, h1, h2, h3, h4]

/-- C9 as stated is false on the code: neither the pydantic model (prompt
declared as a plain required str) nor create_video checks for emptiness, so
a request whose prompt is the empty string is accepted, submitted to the
provider, and — when the provider accepts it — a task id is returned.
Concretely, an empty-prompt request with a succeeding submission yields task
id 42 and a recorded submission carrying the empty prompt. -/
theorem C9_counterexample :
    (handleCreate
        { prompt := some "", image_url := none, image_path := none,
          is_high_quality := none, auto_extend := none, model_name := none,
          webhook_url := none }
        { fetch := Except.error "unused", tempStem := "/tmp/kling",
          submit := Except.ok 42 }).response = Except.ok 42 ∧
    (handleCreate
        { prompt := some "", image_url := none, image_path := none,
          is_high_quality := none, auto_extend := none, model_name := none,
          webhook_url := none }
        { fetch := Except.error "unused", tempStem := "/tmp/kling",
          submit := Except.ok 42 }).submitted
      = some { prompt := "", image_url := none, image_path := none,
               is_high_quality := true, model_name := "1.5",
               return_task_only := true } := by
  exact ⟨rfl, rfl⟩

/-- C9 amended: createJob requires the prompt field to be present: a request
body without a prompt is rejected by validation with a client error (422)
and no job is created — nothing is submitted, nothing scheduled, no file
touched.  A present but empty prompt is accepted and forwarded to the
provider unchanged. -/
theorem C9_amended_prompt_presence :
    ∀ (raw : RawVideoRequest) (env : CreateEnv),
      raw.prompt = none →
      (handleCreate raw env).response = Except.error (422, "Field required") ∧
        (handleCreate raw env).submitted = none ∧
        (handleCreate raw env).scheduled = [] ∧
        (handleCreate raw env).created = [] ∧
        (handleCreate raw env).removed = [] := by
  intro raw env h
  simp [handleCreate, validateRequest, h]

/-- Witness for C9 amended: a promptless request is rejected untouched. -/
theorem C9_witness :
    (handleCreate
        { prompt := none, image_url := none, image_path := some "/a.png",
          is_high_quality := none, auto_extend := none, model_name := none,
          webhook_url := some "http://cb" }
        { fetch := Except.error "unused", tempStem := "/tmp/kling",
          submit := Except.ok 42 }).response = Except.error (422, "Field required") ∧
    (handleCreate
        { prompt := none, image_url := none, image_path := some "/a.png",
          is_high_quality := none, auto_extend := none, model_name := none,
          webhook_url := some "http://cb" }
        { fetch := Except.error "unused", tempStem := "/tmp/kling",
          submit := Except.ok 42 }).submitted = none ∧
    (handleCreate
        { prompt := none, image_url := none, image_path := some "/a.png",
          is_high_quality := none, auto_extend := none, model_name := none,
          webhook_url := some "http://cb" }
        { fetch := Except.error "unused", tempStem := "/tmp/kling",
          submit := Except.ok 42 }).scheduled = [] ∧
    (handleCreate
        { prompt := none, image_url := none, image_path := some "/a.png",
          is_high_quality := none, auto_extend := none, model_name := none,
          webhook_url := some "http://cb" }
        { fetch := Except.error "unused", tempStem := "/tmp/kling",
          submit := Except.ok 42 }).created = [] ∧
    (handleCreate
        { prompt := none, image_url := none, image_path := some "/a.png",
          is_high_quality := none, auto_extend := none, model_name := none,
          webhook_url := some "http://cb" }
        { fetch := Except.error "unused", tempStem := "/tmp/kling",
          submit := Except.ok 42 }).removed = [] :=
  C9_amended_prompt_presence
    { prompt := none, image_url := none, image_path := some "/a.png",
      is_high_quality := none, auto_extend := none, model_name := none,
      webhook_url := some "http://cb" }
    { fetch := Except.error "unused", tempStem := "/tmp/kling",
      submit := Except.ok 42 }
    rfl
